import Mathlib

/-!
Shallow embedding of `QCCTV_LocalCamera` (src/QCCTV-Common/src/QCCTV_LocalCamera.cpp)
from the QCCTV repository, together with proofs about its operations.

The camera object is modelled as an explicit record of its member fields; each
member function becomes a state-passing Lean function.  Qt signal emissions are
recorded in an `events` log appended to the state.  Constants and macros that
live in `QCCTV.h` (which is not part of the sources) are modelled from the
specification and carry a `Modelled from the spec:` doc comment.
-/

set_option maxHeartbeats 1000000

namespace QCCTV

/-- The Qt signals emitted by `QCCTV_LocalCamera` that the embedding tracks. -/
inductive Signal where
  | fpsChanged
  | cameraNameChanged
  | cameraStatusChanged
  | lightStatusChanged
  | imageChanged
  | focusStatusChanged
  deriving DecidableEq, Repr

/-- Abstraction of the `QCamera` hardware handle: whether the flash is ready
(`QCameraExposure::isFlashReady`), whether the device reports
`QCamera::ActiveStatus`, the flash mode last written to the exposure control
(0 = `FlashOff`, 1 = `FlashVideoLight`), and whether `searchAndLock` was
issued. -/
structure Camera where
  flashReady : Bool
  activeStatus : Bool
  flashMode : Nat
  focusLocked : Bool
  deriving DecidableEq, Repr

/-- Abstraction of a `QImage`: its null flag plus the byte payload that the
external still-image codec (`QImage::save` with `QCCTV_IMAGE_FORMAT`,
quality 50) would produce for it.  The codec itself is external library code,
so the compressed bytes are carried as data. -/
structure Image where
  isNull : Bool
  bytes : List Nat
  deriving DecidableEq, Repr

/-- The compressed payload the external codec produces for an image
(`currentImage().save(&buffer, QCCTV_IMAGE_FORMAT, 50)`). -/
def compressImage (img : Image) : List Nat := img.bytes

/-- Modelled from the spec: `QCCTV_MIN_FPS` from `QCCTV.h` (not under src/);
§8 fixes the valid fps range as [1, 60]. -/
def QCCTV_MIN_FPS : Int := 1

/-- Modelled from the spec: `QCCTV_MAX_FPS` from `QCCTV.h` (not under src/);
§8 fixes the valid fps range as [1, 60]. -/
def QCCTV_MAX_FPS : Int := 60

/-- Modelled from the spec: `QCCTV_GET_VALID_FPS` from `QCCTV.h` (not under
src/); "setting fps to a value outside the valid range stores the nearest
valid boundary value". -/
def QCCTV_GET_VALID_FPS (fps : Int) : Int :=
  if fps < QCCTV_MIN_FPS then QCCTV_MIN_FPS
  else if fps > QCCTV_MAX_FPS then QCCTV_MAX_FPS
  else fps

/-- Modelled from the spec: `QCCTV_DEFAULT_FPS` from `QCCTV.h` (not under
src/); the spec does not fix the default, only that stored values are always
in range, so a representative in-range constant is used. -/
def QCCTV_DEFAULT_FPS : Int := 24

/-- Modelled from the spec: `QCCTV_FLASHLIGHT_OFF` from `QCCTV.h` (not under
src/); `LightStatus` is "enumerated {off, on}". -/
def QCCTV_FLASHLIGHT_OFF : Int := 0

/-- Modelled from the spec: `QCCTV_FLASHLIGHT_ON` from `QCCTV.h` (not under
src/); `LightStatus` is "enumerated {off, on}". -/
def QCCTV_FLASHLIGHT_ON : Int := 1

/-- Modelled from the spec: `QCCTV_FORCE_FOCUS` from `QCCTV.h` (not under
src/); the third command byte is a focus-request flag, and the §8 scenario
shows that byte value 0 does not request focus, so the flag value is taken
as 1. -/
def QCCTV_FORCE_FOCUS : Int := 1

/-- Modelled from the spec: `QCCTV_CAMSTATUS_DEFAULT` from `QCCTV.h` (not
under src/); the empty status bitmask. -/
def QCCTV_CAMSTATUS_DEFAULT : Nat := 0

/-- Modelled from the spec: `QCCTV_CAMSTATUS_VIDEO_FAILURE` from `QCCTV.h`
(not under src/); one bit of the closed flag set {video-failure,
light-failure}. -/
def QCCTV_CAMSTATUS_VIDEO_FAILURE : Nat := 1

/-- Modelled from the spec: `QCCTV_CAMSTATUS_LIGHT_FAILURE` from `QCCTV.h`
(not under src/); one bit of the closed flag set {video-failure,
light-failure}. -/
def QCCTV_CAMSTATUS_LIGHT_FAILURE : Nat := 2

/-- Modelled from the spec: `QCCTV_EOD` from `QCCTV.h` (not under src/); the
spec fixes only that it is a fixed end-marker byte sequence appended after
the image payload, so a representative non-empty constant is used. -/
def QCCTV_EOD : List Nat := [13, 10, 13, 10]

/-- The flash modes written to `QCameraExposure` by `setFlashlightStatus`. -/
def FlashOff : Nat := 0

/-- `QCameraExposure::FlashVideoLight`, written when the light is turned on. -/
def FlashVideoLight : Nat := 1

/-- UTF-8 encoding of one character, as `QString::toUtf8` produces it. -/
def utf8EncodeChar (c : Char) : List Nat :=
  let n := c.toNat
  if n < 0x80 then [n]
  else if n < 0x800 then [0xC0 + n / 0x40, 0x80 + n % 0x40]
  else if n < 0x10000 then
    [0xE0 + n / 0x1000, 0x80 + (n / 0x40) % 0x40, 0x80 + n % 0x40]
  else
    [0xF0 + n / 0x40000, 0x80 + (n / 0x1000) % 0x40,
     0x80 + (n / 0x40) % 0x40, 0x80 + n % 0x40]

/-- UTF-8 encoding of a string (`QString::toUtf8`), as appended to the data
stream by `QByteArray::append (const QString &)`. -/
def utf8Encode (s : String) : List Nat :=
  List.foldr (fun c acc => utf8EncodeChar c ++ acc) [] s.data

/-- `QString::length`: the number of UTF-16 code units of the string
(characters outside the basic plane count twice). -/
def qstringLength (s : String) : Nat :=
  List.foldl (fun acc c => acc + (if c.toNat < 0x10000 then 1 else 2)) 0 s.data

/-- Truncation of a C++ `int` to one byte, as `QByteArray::append (char)`
stores it (value taken modulo 256). -/
def intToByte (i : Int) : Nat := (i % 256).toNat

/-- Reading one byte of a `QByteArray` as a signed `char` promoted to `int`,
as `data.at (i)` yields it in `readCommandPacket`. -/
def charOfByte (b : Nat) : Int :=
  if b % 256 < 128 then ((b % 256 : Nat) : Int) else ((b % 256 : Nat) : Int) - 256

/-- The member state of one `QCCTV_LocalCamera` object.  `m_sockets` keeps,
for each connected station, the bytes written to its socket so far; `events`
is the log of emitted Qt signals. -/
structure LocalCamera where
  m_fps : Int
  m_flashlightStatus : Int
  m_name : String
  m_cameraStatus : Nat
  m_image : Image
  m_dataStream : List Nat
  m_sockets : List (List Nat)
  m_camera : Option Camera
  events : List Signal
  deriving DecidableEq, Repr

/-- `QCCTV_LocalCamera::fps`. -/
def fps (s : LocalCamera) : Int := s.m_fps

/-- `QCCTV_LocalCamera::lightStatus`. -/
def lightStatus (s : LocalCamera) : Int := s.m_flashlightStatus

/-- `QCCTV_LocalCamera::cameraName`. -/
def cameraName (s : LocalCamera) : String := s.m_name

/-- `QCCTV_LocalCamera::currentImage`. -/
def currentImage (s : LocalCamera) : Image := s.m_image

/-- `QCCTV_LocalCamera::cameraStatus`. -/
def cameraStatus (s : LocalCamera) : Nat := s.m_cameraStatus

/-- `QCCTV_LocalCamera::flashlightOn`. -/
def flashlightOn (s : LocalCamera) : Bool :=
  lightStatus s = QCCTV_FLASHLIGHT_ON

/-- `QCCTV_LocalCamera::flashlightOff`. -/
def flashlightOff (s : LocalCamera) : Bool :=
  lightStatus s = QCCTV_FLASHLIGHT_OFF

/-- `QCCTV_LocalCamera::flashlightAvailable`: true when a camera is set and
its exposure control reports the flash ready. -/
def flashlightAvailable (s : LocalCamera) : Bool :=
  match s.m_camera with
  | some cam => cam.flashReady
  | none => false

/-- `QCCTV_LocalCamera::setFPS`: stores `QCCTV_GET_VALID_FPS (fps)` and emits
`fpsChanged` when that differs from the stored value. -/
def setFPS (s : LocalCamera) (v : Int) : LocalCamera :=
  if s.m_fps ≠ QCCTV_GET_VALID_FPS v then
    { s with m_fps := QCCTV_GET_VALID_FPS v
             events := s.events ++ [Signal.fpsChanged] }
  else s

/-- `QCCTV_LocalCamera::setName`. -/
def setName (s : LocalCamera) (name : String) : LocalCamera :=
  if s.m_name ≠ name then
    { s with m_name := name
             events := s.events ++ [Signal.cameraNameChanged] }
  else s

/-- `QCCTV_LocalCamera::setCameraStatus`: overrides the status flags and
emits `cameraStatusChanged` unconditionally. -/
def setCameraStatus (s : LocalCamera) (status : Nat) : LocalCamera :=
  { s with m_cameraStatus := status
           events := s.events ++ [Signal.cameraStatusChanged] }

/-- `QCCTV_LocalCamera::addStatusFlag`: sets the bit and emits
`cameraStatusChanged` only when the bit was clear. -/
def addStatusFlag (s : LocalCamera) (status : Nat) : LocalCamera :=
  if s.m_cameraStatus &&& status = 0 then
    { s with m_cameraStatus := s.m_cameraStatus ||| status
             events := s.events ++ [Signal.cameraStatusChanged] }
  else s

/-- `QCCTV_LocalCamera::removeStatusFlag`: clears the bit (by xor) and emits
`cameraStatusChanged` only when the bit was set. -/
def removeStatusFlag (s : LocalCamera) (status : Nat) : LocalCamera :=
  if s.m_cameraStatus &&& status ≠ 0 then
    { s with m_cameraStatus := s.m_cameraStatus ^^^ status
             events := s.events ++ [Signal.cameraStatusChanged] }
  else s

/-- `QCCTV_LocalCamera::focusCamera`: when a camera is present, locks focus
and emits `focusStatusChanged`. -/
def focusCamera (s : LocalCamera) : LocalCamera :=
  match s.m_camera with
  | some cam =>
      { s with m_camera := some { cam with focusLocked := true }
               events := s.events ++ [Signal.focusStatusChanged] }
  | none => s

/-- `QCCTV_LocalCamera::setFlashlightStatus`: stores the requested status
first; then, if the camera or its flash is unavailable, returns early with no
signal and no hardware call; otherwise drives the exposure control (turning
the light on also focuses the camera) and emits `lightStatusChanged`. -/
def setFlashlightStatus (s : LocalCamera) (status : Int) : LocalCamera :=
  if s.m_flashlightStatus ≠ status then
    let s1 := { s with m_flashlightStatus := status }
    match s1.m_camera with
    | none => s1
    | some cam =>
      if ¬ cam.flashReady then s1
      else if flashlightOn s1 then
        let s2 := { s1 with m_camera := some { cam with flashMode := FlashVideoLight } }
        let s3 := focusCamera s2
        { s3 with events := s3.events ++ [Signal.lightStatusChanged] }
      else
        { s1 with m_camera := some { cam with flashMode := FlashOff }
                  events := s1.events ++ [Signal.lightStatusChanged] }
  else s

/-- `QCCTV_LocalCamera::changeImage`: replaces the image and emits
`imageChanged` only when the incoming image is not null. -/
def changeImage (s : LocalCamera) (image : Image) : LocalCamera :=
  if image.isNull = false then
    { s with m_image := image
             events := s.events ++ [Signal.imageChanged] }
  else s

/-- `QCCTV_LocalCamera::setCamera`: installs the camera handle when one is
given (viewfinder and capture configuration are external side effects). -/
def setCamera (s : LocalCamera) (camera : Option Camera) : LocalCamera :=
  match camera with
  | some cam => { s with m_camera := some cam }
  | none => s

/-- `QCCTV_LocalCamera::generateDataStream`: only when the previous stream has
been sent (empty buffer), appends the name length, the name bytes, the fps,
the light status, the camera status, the compressed image (when not null) and
the end bytes. -/
def generateDataStream (s : LocalCamera) : LocalCamera :=
  if s.m_dataStream = [] then
    let d := s.m_dataStream
    let d := d ++ [qstringLength (cameraName s) % 256]
    let d := d ++ utf8Encode (cameraName s)
    let d := d ++ [intToByte (fps s)]
    let d := d ++ [intToByte (lightStatus s)]
    let d := d ++ [cameraStatus s % 256]
    let d := d ++ (if (currentImage s).isNull then [] else compressImage (currentImage s))
    let d := d ++ QCCTV_EOD
    { s with m_dataStream := d }
  else s

/-- `QCCTV_LocalCamera::sendCameraData`: writes the data stream to every
connected socket, then clears it. -/
def sendCameraData (s : LocalCamera) : LocalCamera :=
  { s with m_sockets := s.m_sockets.map (fun out => out ++ s.m_dataStream)
           m_dataStream := [] }

/-- `QCCTV_LocalCamera::updateStatus`: health checks — a missing or inactive
camera sets `VIDEO_FAILURE` (otherwise it is removed), then flash
availability drives `LIGHT_FAILURE` the same way. -/
def updateStatus (s : LocalCamera) : LocalCamera :=
  let s1 :=
    match s.m_camera with
    | none => addStatusFlag s QCCTV_CAMSTATUS_VIDEO_FAILURE
    | some cam =>
      if ¬ cam.activeStatus then addStatusFlag s QCCTV_CAMSTATUS_VIDEO_FAILURE
      else removeStatusFlag s QCCTV_CAMSTATUS_VIDEO_FAILURE
  if ¬ flashlightAvailable s1 then addStatusFlag s1 QCCTV_CAMSTATUS_LIGHT_FAILURE
  else removeStatusFlag s1 QCCTV_CAMSTATUS_LIGHT_FAILURE

/-- `QCCTV_LocalCamera::update`: one scheduler tick — refresh the status,
generate the data stream, send it, then re-arm the timer for
`1000 / fps()` milliseconds computed at that point.  Returns the new state
and the re-armed period. -/
def update (s : LocalCamera) : LocalCamera × Nat :=
  let s1 := updateStatus s
  let s2 := generateDataStream s1
  let s3 := sendCameraData s2
  (s3, 1000 / (fps s3).toNat)

/-- `QCCTV_LocalCamera::readCommandPacket`: drops any read whose size is not
exactly 3; otherwise applies the fps byte, then the light-status byte, then
focuses when the third byte is `QCCTV_FORCE_FOCUS`.  Bytes are read back as
signed chars, as `QByteArray::at` yields them. -/
def readCommandPacket (s : LocalCamera) (data : List Nat) : LocalCamera :=
  if data.length ≠ 3 then s
  else
    match data with
    | [b0, b1, b2] =>
      let s1 := setFPS s (charOfByte b0)
      let s2 := setFlashlightStatus s1 (charOfByte b1)
      if charOfByte b2 = QCCTV_FORCE_FOCUS then focusCamera s2 else s2
    | _ => s

/-- The placeholder image the constructor draws ("NO CAMERA IMAGE" on a
320×240 black pixmap): a non-null image whose compressed payload is carried
abstractly. -/
def defaultImage : Image := { isNull := false, bytes := [0] }

/-- A null image, as delivered by a failed frame grab. -/
def nullImage : Image := { isNull := true, bytes := [] }

/-- The state right after `QCCTV_LocalCamera::QCCTV_LocalCamera ()`: defaults
set through the setters, the placeholder image installed, no camera handle,
no connections, empty data stream.  The signal log starts empty: signals
emitted during construction have no subscribers yet. -/
def initState : LocalCamera :=
  { m_fps := QCCTV_GET_VALID_FPS QCCTV_DEFAULT_FPS
    m_flashlightStatus := QCCTV_FLASHLIGHT_OFF
    m_name := "Unknown Camera"
    m_cameraStatus := QCCTV_CAMSTATUS_DEFAULT
    m_image := defaultImage
    m_dataStream := []
    m_sockets := []
    m_camera := none
    events := [] }

/-- The public operations of `QCCTV_LocalCamera` that mutate its state, as an
action type for reachability statements. -/
inductive Op where
  | opSetFPS (v : Int)
  | opSetName (n : String)
  | opSetCameraStatus (c : Nat)
  | opAddStatusFlag (f : Nat)
  | opRemoveStatusFlag (f : Nat)
  | opSetFlashlightStatus (v : Int)
  | opChangeImage (img : Image)
  | opSetCamera (cam : Option Camera)
  | opFocusCamera
  | opGenerateDataStream
  | opSendCameraData
  | opUpdateStatus
  | opUpdate
  | opReadCommandPacket (data : List Nat)

/-- Interpretation of one operation on the camera state. -/
def applyOp (s : LocalCamera) (op : Op) : LocalCamera :=
  match op with
  | Op.opSetFPS v => setFPS s v
  | Op.opSetName n => setName s n
  | Op.opSetCameraStatus c => setCameraStatus s c
  | Op.opAddStatusFlag f => addStatusFlag s f
  | Op.opRemoveStatusFlag f => removeStatusFlag s f
  | Op.opSetFlashlightStatus v => setFlashlightStatus s v
  | Op.opChangeImage img => changeImage s img
  | Op.opSetCamera cam => setCamera s cam
  | Op.opFocusCamera => focusCamera s
  | Op.opGenerateDataStream => generateDataStream s
  | Op.opSendCameraData => sendCameraData s
  | Op.opUpdateStatus => updateStatus s
  | Op.opUpdate => (update s).1
  | Op.opReadCommandPacket data => readCommandPacket s data

/-- A camera state with a pending, not-yet-sent data stream. -/
def bufState : LocalCamera := { initState with m_dataStream := [7] }

/-- A camera state in which the video-failure flag is already set. -/
def flagState : LocalCamera := { initState with m_cameraStatus := 1 }

/-- Membership in the closed status-flag set of the protocol. -/
def isStatusFlag (f : Nat) : Prop :=
  f = QCCTV_CAMSTATUS_VIDEO_FAILURE ∨ f = QCCTV_CAMSTATUS_LIGHT_FAILURE

/-- Claim C1: backpressure — when the outbound buffer is non-empty,
`generateDataStream` is a no-op on the whole camera state; and calling it
twice in a row equals calling it once. -/
theorem generateDataStream_backpressure (s : LocalCamera) :
    (s.m_dataStream ≠ [] → generateDataStream s = s) ∧
    generateDataStream (generateDataStream s) = generateDataStream s := by
  constructor
  · intro h
    simp [generateDataStream, h]
  · by_cases h : s.m_dataStream = []
    · simp [generateDataStream, h]
    · simp [generateDataStream, h]

/-- Witness for C1 at concrete states: a one-byte pending buffer blocks
encoding, and encoding twice from the initial state equals encoding once. -/
theorem generateDataStream_backpressure_witness :
    generateDataStream bufState = bufState ∧
    generateDataStream (generateDataStream initState) = generateDataStream initState :=
  ⟨(generateDataStream_backpressure bufState).1 (by decide),
   (generateDataStream_backpressure initState).2⟩

/-- Claim C2: wire layout — from an empty buffer and a non-null image,
`generateDataStream` produces, in order, the one-byte name length, the UTF-8
name bytes, one byte each of fps, light status and status flags, the
compressed image payload, and the end-marker bytes. -/
theorem generateDataStream_layout (s : LocalCamera)
    (hbuf : s.m_dataStream = []) (himg : (currentImage s).isNull = false) :
    (generateDataStream s).m_dataStream =
      [qstringLength (cameraName s) % 256] ++ utf8Encode (cameraName s) ++
      [intToByte (fps s), intToByte (lightStatus s), cameraStatus s % 256] ++
      compressImage (currentImage s) ++ QCCTV_EOD := by
  simp [generateDataStream, hbuf, himg]

/-- Witness for C2: the layout evaluated at the freshly constructed state. -/
theorem generateDataStream_layout_witness :
    (generateDataStream initState).m_dataStream =
      [qstringLength (cameraName initState) % 256] ++ utf8Encode (cameraName initState) ++
      [intToByte (fps initState), intToByte (lightStatus initState),
       cameraStatus initState % 256] ++
      compressImage (currentImage initState) ++ QCCTV_EOD :=
  generateDataStream_layout initState rfl rfl

/-- Claim C7: `sendCameraData` appends the buffered frame to every connected
socket's stream (also vacuously when no station is connected) and leaves the
outbound buffer empty, while touching nothing else. -/
theorem sendCameraData_broadcast (s : LocalCamera) :
    (sendCameraData s).m_sockets = s.m_sockets.map (fun out => out ++ s.m_dataStream) ∧
    (sendCameraData s).m_dataStream = [] ∧
    (sendCameraData s).m_fps = s.m_fps ∧
    (sendCameraData s).m_flashlightStatus = s.m_flashlightStatus ∧
    (sendCameraData s).m_name = s.m_name ∧
    (sendCameraData s).m_cameraStatus = s.m_cameraStatus ∧
    (sendCameraData s).m_image = s.m_image ∧
    (sendCameraData s).m_camera = s.m_camera ∧
    (sendCameraData s).events = s.events := by
  simp [sendCameraData]

/-- The stored fps after `setFPS` is always the clamped input. -/
theorem setFPS_m_fps (s : LocalCamera) (v : Int) :
    (setFPS s v).m_fps = QCCTV_GET_VALID_FPS v := by
  unfold setFPS
  split
  · rfl
  · omega

/-- Claim C5: fps clamping — after any `setFPS` the stored fps lies in the
valid range; out-of-range inputs store the nearest boundary, in-range inputs
are stored as given. -/
theorem setFPS_clamp (s : LocalCamera) (v : Int) :
    QCCTV_MIN_FPS ≤ (setFPS s v).m_fps ∧ (setFPS s v).m_fps ≤ QCCTV_MAX_FPS ∧
    (v < QCCTV_MIN_FPS → (setFPS s v).m_fps = QCCTV_MIN_FPS) ∧
    (QCCTV_MAX_FPS < v → (setFPS s v).m_fps = QCCTV_MAX_FPS) ∧
    (QCCTV_MIN_FPS ≤ v → v ≤ QCCTV_MAX_FPS → (setFPS s v).m_fps = v) := by
  refine ⟨?_, ?_, ?_, ?_, ?_⟩ <;>
    rw [setFPS_m_fps] <;>
    unfold QCCTV_GET_VALID_FPS QCCTV_MIN_FPS QCCTV_MAX_FPS <;>
    split_ifs <;> omega

/-- Witness for C5 at concrete inputs: -5 is clamped up to the minimum, 100
down to the maximum, and 30 is stored verbatim. -/
theorem setFPS_clamp_witness :
    (setFPS initState (-5)).m_fps = QCCTV_MIN_FPS ∧
    (setFPS initState 100).m_fps = QCCTV_MAX_FPS ∧
    (setFPS initState 30).m_fps = 30 :=
  ⟨(setFPS_clamp initState (-5)).2.2.1 (by decide),
   (setFPS_clamp initState 100).2.2.2.1 (by decide),
   (setFPS_clamp initState 30).2.2.2.2 (by decide) (by decide)⟩

/-- Claim C3: command packets — any read whose size is not exactly 3 is
dropped with no effect at all; a 3-byte read applies its bytes in order as
fps request, light-status request, and focus-request flag. -/
theorem readCommandPacket_spec (s : LocalCamera) (data : List Nat) :
    (data.length ≠ 3 → readCommandPacket s data = s) ∧
    (∀ b0 b1 b2 : Nat, readCommandPacket s [b0, b1, b2] =
      (let s1 := setFPS s (charOfByte b0)
       let s2 := setFlashlightStatus s1 (charOfByte b1)
       if charOfByte b2 = QCCTV_FORCE_FOCUS then focusCamera s2 else s2)) := by
  constructor
  · intro h
    simp [readCommandPacket, h]
  · intro b0 b1 b2
    simp [readCommandPacket]

/-- Witness for C3: a 2-byte packet is rejected without effect and the §8
scenario bytes [30, 1, 0] are applied in order. -/
theorem readCommandPacket_spec_witness :
    readCommandPacket initState [30, 1] = initState ∧
    readCommandPacket initState [30, 1, 0] =
      (let s1 := setFPS initState (charOfByte 30)
       let s2 := setFlashlightStatus s1 (charOfByte 1)
       if charOfByte 0 = QCCTV_FORCE_FOCUS then focusCamera s2 else s2) :=
  ⟨(readCommandPacket_spec initState [30, 1]).1 (by decide),
   (readCommandPacket_spec initState [30, 1, 0]).2 30 1 0⟩

/-- Counterexample to claim C9 as stated: `setCameraStatus` with the current
status value leaves the stored value unchanged yet still emits a
`cameraStatusChanged` notification. -/
theorem setCameraStatus_signals_unchanged_cex :
    (setCameraStatus initState initState.m_cameraStatus).m_cameraStatus
        = initState.m_cameraStatus ∧
    (setCameraStatus initState initState.m_cameraStatus).events ≠ initState.events := by
  decide

/-- Claim C9 as amended: `setName` and `setFPS` emit their change
notification exactly when the stored value changes, but `setCameraStatus`
emits `cameraStatusChanged` unconditionally, even when the value is
unchanged. -/
theorem mutator_signal_contract (s : LocalCamera) (n : String) (v : Int) (c : Nat) :
    ((setName s n).events =
      if s.m_name = n then s.events else s.events ++ [Signal.cameraNameChanged]) ∧
    ((setName s n).m_name = n) ∧
    ((setFPS s v).events =
      if s.m_fps = QCCTV_GET_VALID_FPS v then s.events
      else s.events ++ [Signal.fpsChanged]) ∧
    ((setCameraStatus s c).events = s.events ++ [Signal.cameraStatusChanged]) ∧
    ((setCameraStatus s c).m_cameraStatus = c) := by
  refine ⟨?_, ?_, ?_, ?_, ?_⟩
  · by_cases h : s.m_name = n <;> simp [setName, h]
  · by_cases h : s.m_name = n <;> simp [setName, h]
  · by_cases h : s.m_fps = QCCTV_GET_VALID_FPS v <;> simp [setFPS, h]
  · simp [setCameraStatus]
  · simp [setCameraStatus]

/-- Counterexample to claim C4 as stated: with no camera installed the light
hardware is unavailable, yet a light-status mutation request still changes
the stored light status. -/
theorem setFlashlightStatus_unavailable_cex :
    flashlightAvailable initState = false ∧
    (setFlashlightStatus initState QCCTV_FLASHLIGHT_ON).m_flashlightStatus
      ≠ initState.m_flashlightStatus := by
  decide

/-- Claim C4 as amended: when the light hardware is unavailable, the request
still stores the requested light status, but there is no notification, no
hardware call, and no other state change. -/
theorem setFlashlightStatus_unavailable (s : LocalCamera) (status : Int)
    (h : flashlightAvailable s = false) :
    (setFlashlightStatus s status).m_flashlightStatus = status ∧
    (setFlashlightStatus s status).events = s.events ∧
    (setFlashlightStatus s status).m_camera = s.m_camera ∧
    (setFlashlightStatus s status).m_fps = s.m_fps ∧
    (setFlashlightStatus s status).m_name = s.m_name ∧
    (setFlashlightStatus s status).m_cameraStatus = s.m_cameraStatus ∧
    (setFlashlightStatus s status).m_image = s.m_image ∧
    (setFlashlightStatus s status).m_dataStream = s.m_dataStream ∧
    (setFlashlightStatus s status).m_sockets = s.m_sockets := by
  by_cases hst : s.m_flashlightStatus = status
  · simp [setFlashlightStatus, hst]
  · cases hc : s.m_camera with
    | none => simp [setFlashlightStatus, hst, hc]
    | some cam =>
      have hf : cam.flashReady = false := by
        simpa [flashlightAvailable, hc] using h
      simp [setFlashlightStatus, hst, hc, hf]

/-- Witness for C4 (amended) at the initial state, whose light hardware is
unavailable: requesting light-on stores the request and emits nothing. -/
theorem setFlashlightStatus_unavailable_witness :
    (setFlashlightStatus initState QCCTV_FLASHLIGHT_ON).m_flashlightStatus
        = QCCTV_FLASHLIGHT_ON ∧
    (setFlashlightStatus initState QCCTV_FLASHLIGHT_ON).events = initState.events :=
  ⟨(setFlashlightStatus_unavailable initState QCCTV_FLASHLIGHT_ON rfl).1,
   (setFlashlightStatus_unavailable initState QCCTV_FLASHLIGHT_ON rfl).2.1⟩

/-- Setting a bit with `|||` always leaves that bit set. -/
theorem lor_land_self (x f : Nat) : (x ||| f) &&& f = f := by
  apply Nat.eq_of_testBit_eq
  intro i
  simp only [Nat.testBit_and, Nat.testBit_or]
  cases f.testBit i <;> simp

/-- Counterexample to claim C6 as stated: when the flag is already present,
adding it twice emits zero change notifications, not exactly one. -/
theorem statusFlag_idempotence_cex :
    (addStatusFlag (addStatusFlag flagState QCCTV_CAMSTATUS_VIDEO_FAILURE)
        QCCTV_CAMSTATUS_VIDEO_FAILURE).m_cameraStatus
      = (addStatusFlag flagState QCCTV_CAMSTATUS_VIDEO_FAILURE).m_cameraStatus ∧
    (addStatusFlag (addStatusFlag flagState QCCTV_CAMSTATUS_VIDEO_FAILURE)
        QCCTV_CAMSTATUS_VIDEO_FAILURE).events.length
      ≠ flagState.events.length + 1 := by
  decide

/-- Claim C6 as amended: for any flag of the closed flag set, a second
`addStatusFlag` of the same flag changes nothing — double add equals single
add as whole states, so it emits exactly as many notifications as a single
add (one when the flag was absent, zero when it was already present, never
two); and removing an absent flag is a no-op that emits nothing. -/
theorem statusFlag_idempotence (s : LocalCamera) (f : Nat) (hf : isStatusFlag f) :
    addStatusFlag (addStatusFlag s f) f = addStatusFlag s f ∧
    (s.m_cameraStatus &&& f = 0 →
      (addStatusFlag s f).events = s.events ++ [Signal.cameraStatusChanged]) ∧
    (s.m_cameraStatus &&& f ≠ 0 → addStatusFlag s f = s) ∧
    (s.m_cameraStatus &&& f = 0 → removeStatusFlag s f = s) := by
  have hf0 : f ≠ 0 := by
    rcases hf with h | h <;>
      simp [h, QCCTV_CAMSTATUS_VIDEO_FAILURE, QCCTV_CAMSTATUS_LIGHT_FAILURE]
  refine ⟨?_, ?_, ?_, ?_⟩
  · by_cases h : s.m_cameraStatus &&& f = 0
    · have h2 : addStatusFlag s f =
          { s with m_cameraStatus := s.m_cameraStatus ||| f
                   events := s.events ++ [Signal.cameraStatusChanged] } := by
        simp [addStatusFlag, h]
      rw [h2]
      simp [addStatusFlag, lor_land_self, hf0]
    · have h2 : addStatusFlag s f = s := by
        simp [addStatusFlag, h]
      rw [h2]
      exact h2
  · intro h
    simp [addStatusFlag, h]
  · intro h
    simp [addStatusFlag, h]
  · intro h
    simp [removeStatusFlag, h]

/-- Witness for C6 (amended): from the initial state a fresh flag emits one
notification and double add collapses; from a state that already carries the
flag, add is a no-op; removing the absent light-failure flag does nothing. -/
theorem statusFlag_idempotence_witness :
    addStatusFlag (addStatusFlag initState QCCTV_CAMSTATUS_VIDEO_FAILURE)
        QCCTV_CAMSTATUS_VIDEO_FAILURE
      = addStatusFlag initState QCCTV_CAMSTATUS_VIDEO_FAILURE ∧
    (addStatusFlag initState QCCTV_CAMSTATUS_VIDEO_FAILURE).events
      = initState.events ++ [Signal.cameraStatusChanged] ∧
    addStatusFlag flagState QCCTV_CAMSTATUS_VIDEO_FAILURE = flagState ∧
    removeStatusFlag initState QCCTV_CAMSTATUS_VIDEO_FAILURE = initState :=
  ⟨(statusFlag_idempotence initState QCCTV_CAMSTATUS_VIDEO_FAILURE (Or.inl rfl)).1,
   (statusFlag_idempotence initState QCCTV_CAMSTATUS_VIDEO_FAILURE (Or.inl rfl)).2.1
     (by decide),
   (statusFlag_idempotence flagState QCCTV_CAMSTATUS_VIDEO_FAILURE (Or.inl rfl)).2.2.1
     (by decide),
   (statusFlag_idempotence initState QCCTV_CAMSTATUS_VIDEO_FAILURE (Or.inl rfl)).2.2.2
     (by decide)⟩

/-- `addStatusFlag` never changes the stored fps. -/
theorem addStatusFlag_m_fps (s : LocalCamera) (f : Nat) :
    (addStatusFlag s f).m_fps = s.m_fps := by
  unfold addStatusFlag
  split <;> rfl

/-- `removeStatusFlag` never changes the stored fps. -/
theorem removeStatusFlag_m_fps (s : LocalCamera) (f : Nat) :
    (removeStatusFlag s f).m_fps = s.m_fps := by
  unfold removeStatusFlag
  split <;> rfl

/-- The health-check pass never changes the stored fps. -/
theorem updateStatus_m_fps (s : LocalCamera) : (updateStatus s).m_fps = s.m_fps := by
  unfold updateStatus
  cases hc : s.m_camera <;>
    simp only [hc] <;>
    split <;>
    (try split) <;>
    simp [addStatusFlag_m_fps, removeStatusFlag_m_fps]

/-- Encoding never changes the stored fps. -/
theorem generateDataStream_m_fps (s : LocalCamera) :
    (generateDataStream s).m_fps = s.m_fps := by
  unfold generateDataStream
  split <;> rfl

/-- Broadcasting never changes the stored fps. -/
theorem sendCameraData_m_fps (s : LocalCamera) :
    (sendCameraData s).m_fps = s.m_fps := rfl

/-- Claim C8: one scheduler tick runs, in order, the health-check pass, then
encoding under backpressure, then broadcast, and only then re-arms the timer
with period `1000 / fps` computed from the fps current at that moment; the
tick itself leaves fps unchanged, so the period always reflects the fps at
re-arm time and a `setFPS` between ticks changes only the next period. -/
theorem update_tick (s : LocalCamera) :
    update s = (sendCameraData (generateDataStream (updateStatus s)),
      1000 / (fps (sendCameraData (generateDataStream (updateStatus s)))).toNat) ∧
    (update s).1.m_fps = s.m_fps ∧
    (update s).2 = 1000 / s.m_fps.toNat ∧
    (∀ v : Int, (update (setFPS s v)).2 = 1000 / (QCCTV_GET_VALID_FPS v).toNat) := by
  have hfps : ∀ t : LocalCamera,
      (sendCameraData (generateDataStream (updateStatus t))).m_fps = t.m_fps := by
    intro t
    rw [sendCameraData_m_fps, generateDataStream_m_fps, updateStatus_m_fps]
  refine ⟨rfl, hfps s, ?_, ?_⟩
  · show 1000 / (fps (sendCameraData (generateDataStream (updateStatus s)))).toNat
        = 1000 / s.m_fps.toNat
    rw [fps, hfps s]
  · intro v
    show 1000 / (fps (sendCameraData (generateDataStream
        (updateStatus (setFPS s v))))).toNat = _
    rw [fps, hfps (setFPS s v), setFPS_m_fps]

/-- `setFPS` never touches the stored image. -/
theorem setFPS_m_image (s : LocalCamera) (v : Int) :
    (setFPS s v).m_image = s.m_image := by
  unfold setFPS
  split <;> rfl

/-- `setName` never touches the stored image. -/
theorem setName_m_image (s : LocalCamera) (n : String) :
    (setName s n).m_image = s.m_image := by
  unfold setName
  split <;> rfl

/-- `addStatusFlag` never touches the stored image. -/
theorem addStatusFlag_m_image (s : LocalCamera) (f : Nat) :
    (addStatusFlag s f).m_image = s.m_image := by
  unfold addStatusFlag
  split <;> rfl

/-- `removeStatusFlag` never touches the stored image. -/
theorem removeStatusFlag_m_image (s : LocalCamera) (f : Nat) :
    (removeStatusFlag s f).m_image = s.m_image := by
  unfold removeStatusFlag
  split <;> rfl

/-- `focusCamera` never touches the stored image. -/
theorem focusCamera_m_image (s : LocalCamera) :
    (focusCamera s).m_image = s.m_image := by
  unfold focusCamera
  cases s.m_camera <;> rfl

/-- `setFlashlightStatus` never touches the stored image. -/
theorem setFlashlightStatus_m_image (s : LocalCamera) (v : Int) :
    (setFlashlightStatus s v).m_image = s.m_image := by
  by_cases hst : s.m_flashlightStatus = v
  · simp [setFlashlightStatus, hst]
  · cases hc : s.m_camera with
    | none => simp [setFlashlightStatus, hst, hc]
    | some cam =>
      by_cases hf : cam.flashReady
      · by_cases hon : v = QCCTV_FLASHLIGHT_ON
        · simp [setFlashlightStatus, hst, hc, hf, hon, focusCamera,
                flashlightOn, lightStatus]
          split <;> rfl
        · simp [setFlashlightStatus, hst, hc, hf, hon, focusCamera,
                flashlightOn, lightStatus]
      · simp [setFlashlightStatus, hst, hc, hf]

/-- The health-check pass never touches the stored image. -/
theorem updateStatus_m_image (s : LocalCamera) :
    (updateStatus s).m_image = s.m_image := by
  unfold updateStatus
  cases hc : s.m_camera <;>
    simp only [hc] <;>
    split <;>
    (try split) <;>
    simp [addStatusFlag_m_image, removeStatusFlag_m_image]

/-- Encoding never touches the stored image. -/
theorem generateDataStream_m_image (s : LocalCamera) :
    (generateDataStream s).m_image = s.m_image := by
  unfold generateDataStream
  split <;> rfl

/-- Broadcasting never touches the stored image. -/
theorem sendCameraData_m_image (s : LocalCamera) :
    (sendCameraData s).m_image = s.m_image := rfl

/-- `readCommandPacket` never touches the stored image. -/
theorem readCommandPacket_m_image (s : LocalCamera) (data : List Nat) :
    (readCommandPacket s data).m_image = s.m_image := by
  unfold readCommandPacket
  split
  · rfl
  · split
    · split <;>
        simp [focusCamera_m_image, setFlashlightStatus_m_image, setFPS_m_image]
    · rfl

/-- `setCamera` never touches the stored image. -/
theorem setCamera_m_image (s : LocalCamera) (cam : Option Camera) :
    (setCamera s cam).m_image = s.m_image := by
  unfold setCamera
  cases cam <;> rfl

/-- Every operation keeps the stored image non-null. -/
theorem applyOp_image_not_null (s : LocalCamera) (op : Op)
    (h : s.m_image.isNull = false) : (applyOp s op).m_image.isNull = false := by
  cases op with
  | opChangeImage img =>
    show (changeImage s img).m_image.isNull = false
    unfold changeImage
    split
    · next himg => simpa using himg
    · exact h
  | opUpdate =>
    show (sendCameraData (generateDataStream (updateStatus s))).m_image.isNull = false
    rw [sendCameraData_m_image, generateDataStream_m_image, updateStatus_m_image]
    exact h
  | opSetFPS v =>
    show (setFPS s v).m_image.isNull = false
    rw [setFPS_m_image]; exact h
  | opSetName n =>
    show (setName s n).m_image.isNull = false
    rw [setName_m_image]; exact h
  | opSetCameraStatus c =>
    show (setCameraStatus s c).m_image.isNull = false
    exact h
  | opAddStatusFlag f =>
    show (addStatusFlag s f).m_image.isNull = false
    rw [addStatusFlag_m_image]; exact h
  | opRemoveStatusFlag f =>
    show (removeStatusFlag s f).m_image.isNull = false
    rw [removeStatusFlag_m_image]; exact h
  | opSetFlashlightStatus v =>
    show (setFlashlightStatus s v).m_image.isNull = false
    rw [setFlashlightStatus_m_image]; exact h
  | opSetCamera cam =>
    show (setCamera s cam).m_image.isNull = false
    rw [setCamera_m_image]; exact h
  | opFocusCamera =>
    show (focusCamera s).m_image.isNull = false
    rw [focusCamera_m_image]; exact h
  | opGenerateDataStream =>
    show (generateDataStream s).m_image.isNull = false
    rw [generateDataStream_m_image]; exact h
  | opSendCameraData =>
    show (sendCameraData s).m_image.isNull = false
    rw [sendCameraData_m_image]; exact h
  | opUpdateStatus =>
    show (updateStatus s).m_image.isNull = false
    rw [updateStatus_m_image]; exact h
  | opReadCommandPacket data =>
    show (readCommandPacket s data).m_image.isNull = false
    rw [readCommandPacket_m_image]; exact h

/-- Non-nullness of the image is preserved by any sequence of operations. -/
theorem foldl_image_not_null (ops : List Op) (s : LocalCamera)
    (h : s.m_image.isNull = false) :
    (ops.foldl applyOp s).m_image.isNull = false := by
  induction ops generalizing s with
  | nil => exact h
  | cons op rest ih => exact ih (applyOp s op) (applyOp_image_not_null s op h)

/-- Claim C10: a null incoming frame leaves the image and signal log
untouched; the constructor installs a non-null placeholder; and after any
sequence of operations from the constructed state the current image is still
non-null. -/
theorem currentImage_never_null :
    (∀ (s : LocalCamera) (img : Image), img.isNull = true → changeImage s img = s) ∧
    (currentImage initState).isNull = false ∧
    (∀ ops : List Op, (currentImage (ops.foldl applyOp initState)).isNull = false) := by
  refine ⟨?_, rfl, ?_⟩
  · intro s img h
    simp [changeImage, h]
  · intro ops
    exact foldl_image_not_null ops initState rfl

/-- Witness for C10: a concrete null frame is ignored outright, and a full
scheduler tick from the constructed state keeps the image non-null. -/
theorem currentImage_never_null_witness :
    changeImage initState nullImage = initState ∧
    (currentImage ([Op.opUpdate].foldl applyOp initState)).isNull = false :=
  ⟨currentImage_never_null.1 initState nullImage rfl,
   currentImage_never_null.2.2 [Op.opUpdate]⟩

end QCCTV
